import Mathlib

/-!
Verification of the rssm state-container core: the reducer (transition
engine) from src/index.tsx, the persistence synchronizer (durable-storage
effects, debounced writes, TTL expiry, load-time rehydration) from
src/index.tsx and src/storage.ts, and the validate-but-never-reject policy.

The reducer is embedded as a pure function from (state, action) to the next
state together with the list of persistence side-effects it triggers in the
same invocation (immediate durable write, scheduled debounced write, or
durable removal).  A separate interpreter threads those effects through a
model of the durable store, with explicit failure flags standing for thrown
storage exceptions (which the source catches locally).  Logging has no
effect on state or storage and is not modelled.
-/

namespace Rssm

/-- In-memory state of one instance, from the source type `State<T>`:
`data: T | null`, `loading: boolean`, `error: string | null`. -/
structure State (T : Type) where
  data : Option T
  loading : Bool
  error : Option String
deriving DecidableEq

/-- The closed action vocabulary, from the source type `Action<T>`.  `P` is
the payload type of UPDATE (`Partial<T>` in the source). -/
inductive Action (T : Type) (P : Type) where
  | CREATE (payload : T)
  | READ (payload : T)
  | UPDATE (patch : P)
  | DESTROY
  | SET_LOADING (flag : Bool)
  | SET_ERROR (msg : Option String)
  | RESET

/-- Per-instance configuration, from `RssmConfig` in src/index.tsx.  The
schema validator is an external collaborator; per the spec contract it has
one operation `parse(value) -> T` that throws on mismatch and otherwise
returns the value, so it is represented by the mismatch predicate `valid`
(see `parseSchema`).  The logger only writes log lines and is omitted. -/
structure RssmConfig (T : Type) where
  name : String
  valid : T → Bool
  persist : Bool
  ttl : Option Nat
  encrypt : Bool
  logging : Bool

/-- The two data-type operations the generic reducer performs on payloads in
its UPDATE branch: `spread cur p` is the object spread of `p` onto `cur`
(`{...currentData, ...payload}` in the source), and `asFull p` is the cast
of the payload used when current data is absent (`payload as T`). -/
structure MergeOps (T P : Type) where
  spread : T → P → T
  asFull : P → T

/-- Schema validation, modelled per the spec contract for the external
validator: `parse(value) -> T`, throwing on mismatch; `valid` decides the
mismatch.  On success the value itself is returned. -/
def parseSchema {T : Type} (valid : T → Bool) (value : T) : Except String T :=
  if valid value then Except.ok value else Except.error "schema validation failed"

/-- The warn-and-continue policy around `schema.parse` in the source
(`try ... catch`): on validation failure the raw value is used unchanged. -/
def parseAdvisory {T : Type} (valid : T → Bool) (value : T) : T :=
  match parseSchema valid value with
  | Except.ok v => v
  | Except.error _ => value

/-- Persistence side-effects a single reducer invocation triggers:
an immediate durable write (`storage.set` inside the CREATE/READ branch),
a scheduled debounced write (`debouncedPersist(newState)`), or a durable
removal (`storage.remove` inside the DESTROY/RESET branches). -/
inductive Effect (T : Type) where
  | persistNow (key : String) (snapshot : State T) (ttl : Nat) (encrypt : Bool)
  | debounced (snapshot : State T)
  | removeKey (key : String)
deriving DecidableEq

/-- Shared body of the CREATE and READ branches of the reducer
(src/index.tsx lines 26-67): advisory validation, new state
`{data, loading: false, error: null}`, immediate persist when enabled
with `ttl: config.ttl || 0`. -/
def applyCreate {T : Type} (cfg : RssmConfig T) (payload : T) :
    State T × List (Effect T) :=
  let data := parseAdvisory cfg.valid payload
  let newState : State T := { data := some data, loading := false, error := none }
  (newState,
    if cfg.persist then
      [Effect.persistNow cfg.name newState (cfg.ttl.getD 0) cfg.encrypt]
    else [])

/-- The reducer returned by `createReducer` in src/index.tsx, embedded as a
pure function from (state, action) to (next state, triggered persistence
effects).  The deep-equality checks of the source (`isEqual` from
react-fast-compare, and `===` on `loading`/`error`) are decidable equality
here.  The source's defensive `default` branch returns the state unchanged
and is unreachable for the closed `Action` type. -/
def createReducer {T P : Type} [DecidableEq T] (cfg : RssmConfig T)
    (ops : MergeOps T P) (state : State T) (action : Action T P) :
    State T × List (Effect T) :=
  match action with
  | Action.CREATE payload => applyCreate cfg payload
  | Action.READ payload => applyCreate cfg payload
  | Action.UPDATE patch =>
    let newData : T :=
      match state.data with
      | some currentData => ops.spread currentData patch
      | none => ops.asFull patch
    let proceed : State T × List (Effect T) :=
      let newData2 := parseAdvisory cfg.valid newData
      let newState : State T := { state with data := some newData2, error := none }
      (newState, if cfg.persist then [Effect.debounced newState] else [])
    match state.data with
    | some currentData =>
      if currentData = newData then (state, []) else proceed
    | none => proceed
  | Action.DESTROY =>
    ({ data := none, loading := false, error := none },
      if cfg.persist then [Effect.removeKey cfg.name] else [])
  | Action.SET_LOADING flag =>
    if state.loading = flag then (state, [])
    else
      let newState := { state with loading := flag }
      (newState, if cfg.persist then [Effect.debounced newState] else [])
  | Action.SET_ERROR msg =>
    if state.error = msg then (state, [])
    else
      let newState := { state with error := msg, loading := false }
      (newState, if cfg.persist then [Effect.debounced newState] else [])
  | Action.RESET =>
    ({ data := none, loading := false, error := none },
      if cfg.persist then [Effect.removeKey cfg.name] else [])

/-! ## Durable storage model (src/storage.ts, per-key view) -/

/-- A stored record, from `StorageItem<T>` in src/storage.ts: the value, a
flag recording whether the stored string was produced by the obfuscating
encoding (`encode` with `encrypt=true`, base64 of the JSON), and an optional
absolute expiry time in milliseconds. -/
structure StoredItem (A : Type) where
  value : A
  encrypted : Bool
  expires : Option Nat
deriving DecidableEq

/-- `LocalStorage.set` (src/storage.ts lines 44-67): the record written for
a value at time `now` (ms) with `ttl` in seconds and the `encrypt` option;
a zero/absent ttl is falsy in the source, so no expiry marker is stored. -/
def storageSet {A : Type} (now ttl : Nat) (encrypt : Bool) (value : A) : StoredItem A :=
  { value := value, encrypted := encrypt,
    expires := if ttl = 0 then none else some (now + ttl * 1000) }

/-- `LocalStorage.get` (src/storage.ts lines 69-93) on the slot for one key.
A record written obfuscated and read without the `decrypt` option does not
decode (`JSON.parse` on the base64 string throws inside `decode`); the
exception is caught by the surrounding try/catch and `null` is returned
with the record left in place.  (Reading a plain record with `decrypt=true`
still decodes: the inner catch of `decode` falls back to plain JSON.)
Otherwise the stored value is returned unless the item has expired
(`Date.now() > item.expires`), in which case the record is lazily removed
and `null` is returned.  The pair is (returned value, slot after the call). -/
def storageGet {A : Type} (decrypt : Bool) (now : Nat) (slot : Option (StoredItem A)) :
    Option A × Option (StoredItem A) :=
  match slot with
  | none => (none, none)
  | some item =>
    if item.encrypted && !decrypt then (none, some item)
    else
      match item.expires with
      | some e => if e < now then (none, none) else (some item.value, some item)
      | none => (some item.value, some item)

/-- Failure oracle for the storage layer: when a flag is set, the
corresponding underlying storage call throws (quota exceeded, backend
unavailable); the source catches such exceptions locally. -/
structure StorageFailure where
  setFails : Bool
  removeFails : Bool

/-- No storage failure: every storage call succeeds. -/
def noFail : StorageFailure := { setFails := false, removeFails := false }

/-- Observable world of one instance: in-memory state, the durable slot
under the instance name, the pending debounced write (the single-shot
debounce timer payload), the list of durable writes performed so far, and
the count of durable-removal calls made so far. -/
structure World (T : Type) where
  st : State T
  slot : Option (StoredItem (State T))
  pending : Option (State T)
  writes : List (State T)
  removes : Nat
deriving DecidableEq

/-- Interpretation of one persistence effect against the world.  A failing
`set` is caught (src/index.tsx lines 56-63) and leaves the store untouched;
a debounced persist only (re)schedules the pending single-shot write
(use-debounce semantics: a new call replaces the pending one); a removal
call is always counted, and clears the slot unless the underlying call
throws (caught in src/index.tsx lines 119-126). -/
def applyEffect {T : Type} (now : Nat) (fail : StorageFailure) (w : World T) :
    Effect T → World T
  | Effect.persistNow _ snap ttl enc =>
    if fail.setFails then w
    else { w with slot := some (storageSet now ttl enc snap), writes := w.writes ++ [snap] }
  | Effect.debounced snap => { w with pending := some snap }
  | Effect.removeKey _ =>
    if fail.removeFails then { w with removes := w.removes + 1 }
    else { w with slot := none, removes := w.removes + 1 }

/-- One dispatch: run the reducer on the in-memory state, then perform the
persistence effects it triggered. -/
def stepW {T P : Type} [DecidableEq T] (cfg : RssmConfig T) (ops : MergeOps T P)
    (now : Nat) (fail : StorageFailure) (w : World T) (a : Action T P) : World T :=
  let res := createReducer cfg ops w.st a
  res.2.foldl (applyEffect now fail) { w with st := res.1 }

/-- A sequence of dispatches against the same instance, in dispatch order. -/
def runActions {T P : Type} [DecidableEq T] (cfg : RssmConfig T) (ops : MergeOps T P)
    (now : Nat) (fail : StorageFailure) (w : World T) (as : List (Action T P)) : World T :=
  as.foldl (stepW cfg ops now fail) w

/-- `debouncedPersist.flush()` / elapse of the debounce delay: perform the
pending write, if any (src/index.tsx lines 230-247 and the unmount effect at
lines 301-305).  The write itself is wrapped in try/catch, so a failing set
is swallowed; the pending slot is consumed either way. -/
def flushPending {T : Type} (cfg : RssmConfig T) (now : Nat)
    (fail : StorageFailure) (w : World T) : World T :=
  match w.pending with
  | none => w
  | some snap =>
    if fail.setFails then { w with pending := none }
    else { w with slot := some (storageSet now (cfg.ttl.getD 0) cfg.encrypt snap),
                  writes := w.writes ++ [snap], pending := none }

/-- `getInitialState` (src/index.tsx lines 251-297): with persistence
enabled, read the record for the instance name; a record whose `data` is
present is adopted as the starting state after advisory re-validation; a
missing or expired record, or a read that throws (`readFails`), falls back
to the advisory-validated caller-supplied initial data.  The source reads
with `storage.get<State<T>>(name)` — no decrypt option is passed (line
254), so the read here is `storageGet false`: a record written with
`encrypt=true` never decodes and falls back like a missing record. -/
def getInitialState {T : Type} (cfg : RssmConfig T) (initialData : Option T)
    (readFails : Bool) (now : Nat) (slot : Option (StoredItem (State T))) : State T :=
  let fallback : State T :=
    { data := initialData.map (parseAdvisory cfg.valid), loading := false, error := none }
  if cfg.persist then
    if readFails then fallback
    else
      match (storageGet false now slot).1 with
      | some stored =>
        match stored.data with
        | some d => { stored with data := some (parseAdvisory cfg.valid d) }
        | none => fallback
      | none => fallback
  else fallback

/-- Every dispatch in the list changes the in-memory state (no dispatch hits
a no-op short-circuit), checked along the actual trajectory. -/
def allChanging {T P : Type} [DecidableEq T] (cfg : RssmConfig T)
    (ops : MergeOps T P) : State T → List P → Bool
  | _, [] => true
  | s, p :: ps =>
    let s2 := (createReducer cfg ops s (Action.UPDATE p)).1
    decide (s2 ≠ s) && allChanging cfg ops s2 ps

/-! ## Concrete data model: JS objects as association lists

The source instantiates `T` at object types produced by a Zod object
schema.  An object is a list of string-keyed fields in insertion order with
no duplicate keys; `spreadObj` is the object spread `{...base, ...patch}`
(base fields in base order, patched in place, then the new fields of the
patch in patch order).  For duplicate-free objects, structural equality of
this representation coincides with the deep equality used by the source
(react-fast-compare), since spread preserves base key order. -/

abbrev Obj : Type := List (String × Nat)

/-- First value stored under a key, if any (JS property access). -/
def lookupKey (key : String) : Obj → Option Nat
  | [] => none
  | (k, v) :: rest => if k = key then some v else lookupKey key rest

/-- Replace the value of one base field by the patch value for its key,
when the patch has that key. -/
def overrideWith (patch : Obj) (kv : String × Nat) : String × Nat :=
  match lookupKey kv.1 patch with
  | some v => (kv.1, v)
  | none => kv

/-- Object spread `{...base, ...patch}`: every base field keeps its position
(its value overridden when the patch has its key), and fields of the patch
with keys absent from the base are appended in patch order. -/
def spreadObj (base patch : Obj) : Obj :=
  base.map (overrideWith patch) ++
    patch.filter (fun kv => (lookupKey kv.1 base).isNone)

/-- The merge operations the source reducer uses at object types. -/
def opsObj : MergeOps Obj Obj := { spread := spreadObj, asFull := fun p => p }

/-- A JS object has no duplicate keys. -/
def NodupKeys (o : Obj) : Prop := (o.map Prod.fst).Nodup

instance : DecidablePred NodupKeys := fun o =>
  inferInstanceAs (Decidable ((o.map Prod.fst).Nodup))

/-! ## Concrete fixtures used by witnesses and counterexamples -/

/-- A concrete instance configuration: persistence on, no TTL, schema that
accepts everything. -/
def cfgEx : RssmConfig Obj :=
  { name := "demo", valid := fun _ => true, persist := true,
    ttl := none, encrypt := false, logging := false }

/-- Like `cfgEx` with a 10-second TTL. -/
def cfgTtl : RssmConfig Obj := { cfgEx with ttl := some 10 }

/-- Like `cfgEx` with obfuscation enabled. -/
def cfgEnc : RssmConfig Obj := { cfgEx with encrypt := true }

/-- An initial world: empty state, empty store, nothing pending. -/
def w0 : World Obj :=
  { st := { data := none, loading := false, error := none },
    slot := none, pending := none, writes := [], removes := 0 }

/-- Five distinct UPDATE payloads, each changing the state. -/
def psW : List Obj := [[("n", 1)], [("n", 2)], [("n", 3)], [("n", 4)], [("n", 5)]]

/-- A world with the same in-memory state as `w0` but different store
contents, pending write, write log and removal count. -/
def wA : World Obj :=
  { st := { data := none, loading := false, error := none },
    slot := some { value := { data := some [("a", 1)], loading := false, error := none },
                   encrypted := false, expires := some 5 },
    pending := some { data := some [("b", 2)], loading := true, error := none },
    writes := [{ data := none, loading := true, error := none }],
    removes := 3 }

/-! ## Helper lemmas about the reducer -/

@[simp]
theorem parseAdvisory_eq {T : Type} (valid : T → Bool) (value : T) :
    parseAdvisory valid value = value := by
  by_cases h : valid value <;> simp [parseAdvisory, parseSchema, h]

theorem reduce_create {T P : Type} [DecidableEq T] (cfg : RssmConfig T)
    (ops : MergeOps T P) (s : State T) (d : T) :
    createReducer cfg ops s (Action.CREATE d) =
      ({ data := some d, loading := false, error := none },
        if cfg.persist then
          [Effect.persistNow cfg.name
            { data := some d, loading := false, error := none }
            (cfg.ttl.getD 0) cfg.encrypt]
        else []) := by
  simp [createReducer, applyCreate]

theorem reduce_read {T P : Type} [DecidableEq T] (cfg : RssmConfig T)
    (ops : MergeOps T P) (s : State T) (d : T) :
    createReducer cfg ops s (Action.READ d) =
      ({ data := some d, loading := false, error := none },
        if cfg.persist then
          [Effect.persistNow cfg.name
            { data := some d, loading := false, error := none }
            (cfg.ttl.getD 0) cfg.encrypt]
        else []) := by
  simp [createReducer, applyCreate]

theorem reduce_update_skip {T P : Type} [DecidableEq T] (cfg : RssmConfig T)
    (ops : MergeOps T P) (s : State T) (p : P) (D : T)
    (hd : s.data = some D) (he : ops.spread D p = D) :
    createReducer cfg ops s (Action.UPDATE p) = (s, []) := by
  simp [createReducer, hd, he]

theorem reduce_update_go {T P : Type} [DecidableEq T] (cfg : RssmConfig T)
    (ops : MergeOps T P) (s : State T) (p : P) (D : T)
    (hd : s.data = some D) (hne : ops.spread D p ≠ D) :
    createReducer cfg ops s (Action.UPDATE p) =
      ({ s with data := some (ops.spread D p), error := none },
        if cfg.persist then
          [Effect.debounced { s with data := some (ops.spread D p), error := none }]
        else []) := by
  have hne2 : ¬ D = ops.spread D p := fun hh => hne hh.symm
  simp [createReducer, hd, hne2]

theorem reduce_update_none {T P : Type} [DecidableEq T] (cfg : RssmConfig T)
    (ops : MergeOps T P) (s : State T) (p : P) (hd : s.data = none) :
    createReducer cfg ops s (Action.UPDATE p) =
      ({ s with data := some (ops.asFull p), error := none },
        if cfg.persist then
          [Effect.debounced { s with data := some (ops.asFull p), error := none }]
        else []) := by
  simp [createReducer, hd]

/-! ## Lemmas about object spread -/

theorem lookup_append (k : String) (xs ys : Obj) :
    lookupKey k (xs ++ ys) =
      match lookupKey k xs with
      | some v => some v
      | none => lookupKey k ys := by
  induction xs with
  | nil => simp [lookupKey]
  | cons kv rest ih =>
    obtain ⟨k0, v0⟩ := kv
    by_cases h : k0 = k <;> simp [lookupKey, h, ih]

theorem lookup_map_override (patch : Obj) (k : String) (base : Obj) :
    lookupKey k (base.map (overrideWith patch)) =
      (lookupKey k base).map (fun v => (lookupKey k patch).getD v) := by
  induction base with
  | nil => simp [lookupKey]
  | cons kv rest ih =>
    obtain ⟨k0, v0⟩ := kv
    by_cases h : k0 = k
    · subst h
      cases hp : lookupKey k0 patch <;> simp [lookupKey, overrideWith, hp]
    · cases hp : lookupKey k0 patch <;> simp [lookupKey, overrideWith, hp, h, ih]

theorem lookup_filter_new (base patch : Obj) (k : String)
    (hb : lookupKey k base = none) :
    lookupKey k (patch.filter (fun kv => (lookupKey kv.1 base).isNone)) =
      lookupKey k patch := by
  induction patch with
  | nil => simp [lookupKey]
  | cons kv rest ih =>
    obtain ⟨k1, v1⟩ := kv
    by_cases h : k1 = k
    · subst h
      simp [List.filter_cons, lookupKey, hb]
    · cases hf : (lookupKey k1 base).isNone <;>
        simp [List.filter_cons, hf, lookupKey, h, ih]

/-- The shallow-merge semantics of object spread: a key is looked up in the
patch first, then in the base. -/
theorem lookup_spread (base patch : Obj) (k : String) :
    lookupKey k (spreadObj base patch) =
      match lookupKey k patch with
      | some v => some v
      | none => lookupKey k base := by
  rw [spreadObj, lookup_append, lookup_map_override]
  cases hb : lookupKey k base with
  | some v => cases hp : lookupKey k patch <;> simp [hp, hb]
  | none =>
    rw [lookup_filter_new base patch k hb]
    cases hp : lookupKey k patch <;> simp [hp, hb]

theorem lookup_isSome_of_mem {k : String} {v : Nat} {l : Obj}
    (h : (k, v) ∈ l) : (lookupKey k l).isSome := by
  induction l with
  | nil => simp at h
  | cons kv rest ih =>
    obtain ⟨k0, v0⟩ := kv
    rcases List.mem_cons.mp h with h1 | h2
    · obtain ⟨hk, hv⟩ := Prod.mk.injEq .. ▸ h1
      subst hk
      simp [lookupKey]
    · by_cases hk : k0 = k <;> simp [lookupKey, hk, ih h2]

theorem lookup_eq_of_mem_nodup {k : String} {v : Nat} {l : Obj}
    (hn : NodupKeys l) (h : (k, v) ∈ l) : lookupKey k l = some v := by
  induction l with
  | nil => simp at h
  | cons kv rest ih =>
    obtain ⟨k0, v0⟩ := kv
    have hn2 : k0 ∉ rest.map Prod.fst ∧ (rest.map Prod.fst).Nodup := by
      simpa [NodupKeys, List.nodup_cons] using hn
    rcases List.mem_cons.mp h with h1 | h2
    · obtain ⟨hk, hv⟩ := Prod.mk.injEq .. ▸ h1
      subst hk
      subst hv
      simp [lookupKey]
    · by_cases hk : k0 = k
      · exact absurd (hk ▸ List.mem_map_of_mem Prod.fst h2) hn2.1
      · simpa [lookupKey, hk] using ih hn2.2 h2

theorem map_fix {α : Type} (f : α → α) :
    ∀ l : List α, (∀ a ∈ l, f a = a) → l.map f = l := by
  intro l h
  induction l with
  | nil => rfl
  | cons a rest ih =>
    simp only [List.map_cons, h a (List.mem_cons_self a rest)]
    rw [ih fun x hx => h x (List.mem_cons_of_mem a hx)]

/-- Spreading a patch whose fields are already in place changes nothing. -/
theorem spread_absorb (M patch : Obj)
    (h1 : ∀ kv ∈ M, overrideWith patch kv = kv)
    (h2 : ∀ kv ∈ patch, (lookupKey kv.1 M).isSome) :
    spreadObj M patch = M := by
  unfold spreadObj
  rw [map_fix _ M h1]
  have hfil : patch.filter (fun kv => (lookupKey kv.1 M).isNone) = [] := by
    rw [List.filter_eq_nil_iff]
    intro a ha
    have := h2 a ha
    cases hl : lookupKey a.1 M with
    | none => rw [hl] at this; simp at this
    | some v => simp [hl]
  rw [hfil, List.append_nil]

theorem overrideWith_mem_spread (base patch : Obj) (hn : NodupKeys patch) :
    ∀ kv ∈ spreadObj base patch, overrideWith patch kv = kv := by
  intro kv hm
  rcases List.mem_append.mp hm with hml | hmr
  · obtain ⟨kv0, _, rfl⟩ := List.mem_map.mp hml
    cases hp : lookupKey kv0.1 patch <;> simp [overrideWith, hp]
  · obtain ⟨a, b⟩ := kv
    have hmp : (a, b) ∈ patch := List.mem_of_mem_filter hmr
    simp [overrideWith, lookup_eq_of_mem_nodup hn hmp]

/-- Spreading the same patch twice is the same as spreading it once
(for duplicate-free patches). -/
theorem spread_idem (base patch : Obj) (hn : NodupKeys patch) :
    spreadObj (spreadObj base patch) patch = spreadObj base patch := by
  apply spread_absorb
  · exact overrideWith_mem_spread base patch hn
  · intro kv hm
    obtain ⟨a, b⟩ := kv
    rw [lookup_spread, lookup_eq_of_mem_nodup hn hm]
    simp

/-- Spreading a duplicate-free object onto itself is the identity. -/
theorem spread_self (patch : Obj) (hn : NodupKeys patch) :
    spreadObj patch patch = patch := by
  apply spread_absorb
  · intro kv hm
    obtain ⟨a, b⟩ := kv
    simp [overrideWith, lookup_eq_of_mem_nodup hn hm]
  · intro kv hm
    obtain ⟨a, b⟩ := kv
    rw [lookup_eq_of_mem_nodup hn hm]
    simp

/-! ## Claim theorems -/

/-- C1: for every payload `d` and every prior state, dispatching CREATE(d)
or READ(d) yields the state `{data: d, loading: false, error: null}`.  The
payload and the validity predicate are universally quantified, so this
covers payloads failing schema validation: the raw payload is applied to
`data` unchanged and validation never blocks or rejects the transition. -/
theorem c1_create_read_apply_payload {T P : Type} [DecidableEq T]
    (cfg : RssmConfig T) (ops : MergeOps T P) (s : State T) (d : T) :
    (createReducer cfg ops s (Action.CREATE d)).1 =
      { data := some d, loading := false, error := none } ∧
    (createReducer cfg ops s (Action.READ d)).1 =
      { data := some d, loading := false, error := none } := by
  rw [reduce_create, reduce_read]
  exact ⟨rfl, rfl⟩

/-- C4: for every prior state, dispatching DESTROY or RESET yields the state
`{data: null, loading: false, error: null}`, and the triggered effect list
is exactly one durable-removal call for the instance name when persistence
is enabled, and empty otherwise. -/
theorem c4_destroy_reset {T P : Type} [DecidableEq T]
    (cfg : RssmConfig T) (ops : MergeOps T P) (s : State T) :
    createReducer cfg ops s (Action.DESTROY : Action T P) =
      ({ data := none, loading := false, error := none },
        if cfg.persist then [Effect.removeKey cfg.name] else []) ∧
    createReducer cfg ops s (Action.RESET : Action T P) =
      ({ data := none, loading := false, error := none },
        if cfg.persist then [Effect.removeKey cfg.name] else []) :=
  ⟨rfl, rfl⟩

/-- C10: dispatching UPDATE never touches the `loading` flag: the resulting
state has `loading` equal to the prior state, for every payload and state
(both in the no-op short-circuit and in the merge branch). -/
theorem c10_update_preserves_loading {T P : Type} [DecidableEq T]
    (cfg : RssmConfig T) (ops : MergeOps T P) (s : State T) (p : P) :
    ((createReducer cfg ops s (Action.UPDATE p)).1).loading = s.loading := by
  cases hd : s.data with
  | none => rw [reduce_update_none cfg ops s p hd]
  | some D =>
    by_cases he : ops.spread D p = D
    · rw [reduce_update_skip cfg ops s p D hd he]
    · rw [reduce_update_go cfg ops s p D hd he]

/-- C2 counterexample: the claim states that UPDATE always yields `error =
null`, but the no-op short-circuit returns the prior state unchanged, error
included.  With current data `[a: 1]`, a prior error `"boom"` and patch
`[a: 1]` (merge deep-equal to current data), the resulting error is not
null. -/
theorem c2_counterexample :
    (createReducer cfgEx opsObj
        { data := some [("a", 1)], loading := false, error := some "boom" }
        (Action.UPDATE [("a", 1)])).1.error ≠ none := by
  decide

/-- C2 (amended): with current data `D`, dispatching UPDATE(P) yields data
equal to the shallow merge of `D` and `P` (fields present in `P` override
`D`, fields absent in `P` are preserved — the `lookupKey` characterisation),
and `error` is set to null whenever the merge differs from `D`; when the
merge is deep-equal to `D`, the prior state is returned unchanged (the no-op
short-circuit, which leaves `error` alone).  When current data is absent,
the patch is adopted as data as-is with `error` null. -/
theorem c2_update_merge_amended (cfg : RssmConfig Obj) (s : State Obj) (p : Obj) :
    (∀ D, s.data = some D →
      ((createReducer cfg opsObj s (Action.UPDATE p)).1.data = some (spreadObj D p) ∧
       (∀ k, lookupKey k (spreadObj D p) =
          match lookupKey k p with
          | some v => some v
          | none => lookupKey k D) ∧
       (spreadObj D p ≠ D →
          (createReducer cfg opsObj s (Action.UPDATE p)).1.error = none) ∧
       (spreadObj D p = D →
          (createReducer cfg opsObj s (Action.UPDATE p)).1 = s))) ∧
    (s.data = none →
      (createReducer cfg opsObj s (Action.UPDATE p)).1 =
        { s with data := some p, error := none }) := by
  constructor
  · intro D hd
    refine ⟨?_, fun k => lookup_spread D p k, ?_, ?_⟩
    · by_cases he : spreadObj D p = D
      · rw [reduce_update_skip cfg opsObj s p D hd he]
        simp [hd, he]
      · rw [reduce_update_go cfg opsObj s p D hd he]
        exact rfl
    · intro hne
      rw [reduce_update_go cfg opsObj s p D hd hne]
    · intro he
      rw [reduce_update_skip cfg opsObj s p D hd he]
  · intro hd
    rw [reduce_update_none cfg opsObj s p hd]
    exact rfl

/-- C2 witness: merging patch `[b: 9, c: 3]` into data `[a: 1, b: 2]`. -/
theorem c2_update_merge_witness :
    (createReducer cfgEx opsObj
        { data := some [("a", 1), ("b", 2)], loading := false, error := none }
        (Action.UPDATE [("b", 9), ("c", 3)])).1.data =
      some (spreadObj [("a", 1), ("b", 2)] [("b", 9), ("c", 3)]) :=
  ((c2_update_merge_amended cfgEx
      { data := some [("a", 1), ("b", 2)], loading := false, error := none }
      [("b", 9), ("c", 3)]).1 [("a", 1), ("b", 2)] rfl).1

/-- C3 counterexample: the claim states that two consecutive UPDATE(P)
dispatches trigger persistence exactly once, but when the first dispatch is
itself a no-op (the patch merges to the current data) neither dispatch
triggers any persistence effect: with persistence enabled, current data
`[a: 1]` and patch `[a: 1]`, the two dispatches trigger zero persistence
effects, not one. -/
theorem c3_counterexample :
    ((createReducer cfgEx opsObj
        { data := some [("a", 1)], loading := false, error := none }
        (Action.UPDATE [("a", 1)])).2).length +
    ((createReducer cfgEx opsObj
        (createReducer cfgEx opsObj
          { data := some [("a", 1)], loading := false, error := none }
          (Action.UPDATE [("a", 1)])).1
        (Action.UPDATE [("a", 1)])).2).length ≠ 1 := by
  decide

/-- C3 (amended): if the shallow merge of the UPDATE patch into the current
data is deep-equal to the current data, the reducer returns the same state
with no persistence side-effect; consequently, for a duplicate-free patch
and persistence enabled, dispatching UPDATE(P) twice consecutively triggers
persistence at most once: the second dispatch is always a no-op with no
effects, and the first schedules exactly one debounced persist if and only
if it changes the state. -/
theorem c3_update_skip_amended (cfg : RssmConfig Obj) (s : State Obj) (p : Obj)
    (hn : NodupKeys p) (hp : cfg.persist = true) :
    (∀ D, s.data = some D → spreadObj D p = D →
        createReducer cfg opsObj s (Action.UPDATE p) = (s, [])) ∧
    createReducer cfg opsObj
        (createReducer cfg opsObj s (Action.UPDATE p)).1 (Action.UPDATE p) =
      ((createReducer cfg opsObj s (Action.UPDATE p)).1, []) ∧
    (createReducer cfg opsObj s (Action.UPDATE p)).2 =
      (if (createReducer cfg opsObj s (Action.UPDATE p)).1 = s then []
       else [Effect.debounced (createReducer cfg opsObj s (Action.UPDATE p)).1]) := by
  refine ⟨fun D hd he => reduce_update_skip cfg opsObj s p D hd he, ?_, ?_⟩
  · cases hd : s.data with
    | none =>
      rw [reduce_update_none cfg opsObj s p hd]
      exact reduce_update_skip cfg opsObj _ p p rfl (spread_self p hn)
    | some D =>
      by_cases he : spreadObj D p = D
      · rw [reduce_update_skip cfg opsObj s p D hd he]
        exact reduce_update_skip cfg opsObj s p D hd he
      · rw [reduce_update_go cfg opsObj s p D hd he]
        exact reduce_update_skip cfg opsObj _ p (spreadObj D p) rfl (spread_idem D p hn)
  · cases hd : s.data with
    | none =>
      rw [reduce_update_none cfg opsObj s p hd, hp]
      have hne : ({ s with data := some (opsObj.asFull p), error := none } : State Obj) ≠ s := by
        intro hh
        have h2 := congrArg State.data hh
        simp [hd] at h2
      simp [if_neg hne]
    | some D =>
      by_cases he : spreadObj D p = D
      · rw [reduce_update_skip cfg opsObj s p D hd he]
        simp
      · rw [reduce_update_go cfg opsObj s p D hd he, hp]
        have hne : ({ s with data := some (opsObj.spread D p), error := none } : State Obj) ≠ s := by
          intro hh
          have h2 := congrArg State.data hh
          simp [hd] at h2
          exact he h2
        simp [if_neg hne]

/-- C3 witness: one state-changing UPDATE, then the same UPDATE again; the
second dispatch returns the state unchanged with no effects. -/
theorem c3_update_skip_witness :
    createReducer cfgEx opsObj
        (createReducer cfgEx opsObj
          { data := some [("a", 1)], loading := false, error := none }
          (Action.UPDATE [("b", 2)])).1 (Action.UPDATE [("b", 2)]) =
      ((createReducer cfgEx opsObj
          { data := some [("a", 1)], loading := false, error := none }
          (Action.UPDATE [("b", 2)])).1, []) :=
  (c3_update_skip_amended cfgEx
      { data := some [("a", 1)], loading := false, error := none }
      [("b", 2)] (by decide) rfl).2.1

/-! ## Lemmas about the world interpreter -/

theorem map_parseAdvisory {T : Type} (valid : T → Bool) (o : Option T) :
    o.map (parseAdvisory valid) = o := by
  cases o <;> simp

theorem applyEffect_st {T : Type} (now : Nat) (fail : StorageFailure)
    (w : World T) (e : Effect T) : (applyEffect now fail w e).st = w.st := by
  cases e with
  | persistNow k snap ttl enc => by_cases h : fail.setFails <;> simp [applyEffect, h]
  | debounced snap => rfl
  | removeKey k => by_cases h : fail.removeFails <;> simp [applyEffect, h]

theorem foldl_applyEffect_st {T : Type} (now : Nat) (fail : StorageFailure) :
    ∀ (effs : List (Effect T)) (w : World T),
      (effs.foldl (applyEffect now fail) w).st = w.st := by
  intro effs
  induction effs with
  | nil => intro w; rfl
  | cons e rest ih => intro w; rw [List.foldl_cons, ih, applyEffect_st]

theorem stepW_st {T P : Type} [DecidableEq T] (cfg : RssmConfig T)
    (ops : MergeOps T P) (now : Nat) (fail : StorageFailure) (w : World T)
    (a : Action T P) :
    (stepW cfg ops now fail w a).st = (createReducer cfg ops w.st a).1 := by
  unfold stepW
  rw [foldl_applyEffect_st]

theorem reduce_update_changing {T P : Type} [DecidableEq T] (cfg : RssmConfig T)
    (ops : MergeOps T P) (s : State T) (p : P) (hp : cfg.persist = true)
    (hch : (createReducer cfg ops s (Action.UPDATE p)).1 ≠ s) :
    createReducer cfg ops s (Action.UPDATE p) =
      ((createReducer cfg ops s (Action.UPDATE p)).1,
        [Effect.debounced (createReducer cfg ops s (Action.UPDATE p)).1]) := by
  cases hd : s.data with
  | none =>
    rw [reduce_update_none cfg ops s p hd]
    simp [hp]
  | some D =>
    by_cases he : ops.spread D p = D
    · exact absurd (by rw [reduce_update_skip cfg ops s p D hd he]) hch
    · rw [reduce_update_go cfg ops s p D hd he]
      simp [hp]

theorem c7_aux {T P : Type} [DecidableEq T] (cfg : RssmConfig T)
    (ops : MergeOps T P) (now : Nat) (hp : cfg.persist = true) :
    ∀ (ps : List P) (w : World T), allChanging cfg ops w.st ps = true →
      (runActions cfg ops now noFail w (ps.map (Action.UPDATE ·))).writes = w.writes ∧
      (runActions cfg ops now noFail w (ps.map (Action.UPDATE ·))).removes = w.removes ∧
      (runActions cfg ops now noFail w (ps.map (Action.UPDATE ·))).slot = w.slot ∧
      (ps = [] → runActions cfg ops now noFail w (ps.map (Action.UPDATE ·)) = w) ∧
      (ps ≠ [] →
        (runActions cfg ops now noFail w (ps.map (Action.UPDATE ·))).pending =
          some (runActions cfg ops now noFail w (ps.map (Action.UPDATE ·))).st) := by
  intro ps
  induction ps with
  | nil =>
    intro w _
    refine ⟨rfl, rfl, rfl, fun _ => rfl, fun h => absurd rfl h⟩
  | cons p rest ih =>
    intro w hall
    have hall2 : (createReducer cfg ops w.st (Action.UPDATE p)).1 ≠ w.st ∧
        allChanging cfg ops (createReducer cfg ops w.st (Action.UPDATE p)).1 rest = true := by
      simpa [allChanging, Bool.and_eq_true] using hall
    have hstep : stepW cfg ops now noFail w (Action.UPDATE p) =
        { w with st := (createReducer cfg ops w.st (Action.UPDATE p)).1,
                 pending := some (createReducer cfg ops w.st (Action.UPDATE p)).1 } := by
      unfold stepW
      rw [reduce_update_changing cfg ops w.st p hp hall2.1]
      simp [applyEffect]
    have hrun : runActions cfg ops now noFail w ((p :: rest).map (Action.UPDATE ·)) =
        runActions cfg ops now noFail
          (stepW cfg ops now noFail w (Action.UPDATE p)) (rest.map (Action.UPDATE ·)) := rfl
    rw [hrun, hstep]
    have ihr := ih { w with st := (createReducer cfg ops w.st (Action.UPDATE p)).1,
                            pending := some (createReducer cfg ops w.st (Action.UPDATE p)).1 }
      hall2.2
    refine ⟨ihr.1, ihr.2.1, ihr.2.2.1, fun hcons => absurd hcons (List.cons_ne_nil p rest),
      fun _ => ?_⟩
    by_cases hre : rest = []
    · rw [ihr.2.2.2.1 hre]
    · exact ihr.2.2.2.2 hre

/-! ## Remaining claim theorems -/

/-- Rehydration round-trip on the unencrypted path: with persistence
enabled and obfuscation disabled, dispatching CREATE(d) writes the snapshot
to the durable slot, and a fresh instance constructed from that slot starts
from `{data: d, loading: false, error: null}` when the TTL is unset or has
not yet elapsed, and from the caller-supplied initial data when the
configured TTL has elapsed before reconstruction.  (With obfuscation
enabled the round-trip breaks in the source; see
`c5_encrypt_roundtrip_failing`.) -/
theorem rehydration_unencrypted {T P : Type} [DecidableEq T] (cfg : RssmConfig T)
    (ops : MergeOps T P) (d : T) (initialData : Option T) (t0 t1 : Nat)
    (w : World T) (hp : cfg.persist = true) (henc : cfg.encrypt = false) :
    ((cfg.ttl.getD 0 = 0 ∨ t1 ≤ t0 + cfg.ttl.getD 0 * 1000) →
      getInitialState cfg initialData false t1
          (stepW cfg ops t0 noFail w (Action.CREATE d)).slot =
        { data := some d, loading := false, error := none }) ∧
    (0 < cfg.ttl.getD 0 → t0 + cfg.ttl.getD 0 * 1000 < t1 →
      getInitialState cfg initialData false t1
          (stepW cfg ops t0 noFail w (Action.CREATE d)).slot =
        { data := initialData, loading := false, error := none }) := by
  have hslot : (stepW cfg ops t0 noFail w (Action.CREATE d)).slot =
      some (storageSet t0 (cfg.ttl.getD 0) cfg.encrypt
        { data := some d, loading := false, error := none }) := by
    unfold stepW
    rw [reduce_create]
    simp [hp, applyEffect, noFail]
  constructor
  · intro hcase
    rw [hslot]
    rcases hcase with h0 | hle
    · simp [getInitialState, hp, storageGet, storageSet, henc, h0]
    · by_cases h0 : cfg.ttl.getD 0 = 0
      · simp [getInitialState, hp, storageGet, storageSet, henc, h0]
      · have hnl : ¬ (t0 + cfg.ttl.getD 0 * 1000 < t1) := not_lt.mpr hle
        simp [getInitialState, hp, storageGet, storageSet, henc, h0, hnl]
  · intro ht h2
    rw [hslot]
    have h0 : ¬ cfg.ttl.getD 0 = 0 := Nat.pos_iff_ne_zero.mp ht
    simp [getInitialState, hp, storageGet, storageSet, henc, h0, h2, map_parseAdvisory]

/-- Concrete check of `rehydration_unencrypted`: ttl of 10 seconds;
reconstruction at 5000ms rehydrates the created data, reconstruction at
20000ms falls back to the initial data. -/
theorem rehydration_unencrypted_check :
    getInitialState cfgTtl (some [("z", 9)]) false 5000
        (stepW cfgTtl opsObj 0 noFail w0 (Action.CREATE [("a", 1)])).slot =
      { data := some [("a", 1)], loading := false, error := none } ∧
    getInitialState cfgTtl (some [("z", 9)]) false 20000
        (stepW cfgTtl opsObj 0 noFail w0 (Action.CREATE [("a", 1)])).slot =
      { data := some [("z", 9)], loading := false, error := none } :=
  ⟨(rehydration_unencrypted cfgTtl opsObj [("a", 1)] (some [("z", 9)]) 0 5000 w0
      rfl rfl).1 (Or.inr (by decide)),
   (rehydration_unencrypted cfgTtl opsObj [("a", 1)] (some [("z", 9)]) 0 20000 w0
      rfl rfl).2 (by decide) (by decide)⟩

/-- C5: evaluation of the code at the failing input for the encrypted
persistence round-trip.  With `persist=true`, `encrypt=true`, no TTL and
initial data `[z: 9]`, dispatching CREATE(`[a: 1]`) writes the snapshot
obfuscated (`encrypt: config.encrypt` on `storage.set`), but construction
reads it back with `storage.get(name)` and no decrypt option, so the
record does not decode: the fresh instance starts from the initial data
`[z: 9]` and not — as the claim requires, with the TTL not elapsed — from
the created data `[a: 1]`. -/
theorem c5_encrypt_roundtrip_failing :
    getInitialState cfgEnc (some [("z", 9)]) false 5000
        (stepW cfgEnc opsObj 0 noFail w0 (Action.CREATE [("a", 1)])).slot =
      { data := some [("z", 9)], loading := false, error := none } ∧
    getInitialState cfgEnc (some [("z", 9)]) false 5000
        (stepW cfgEnc opsObj 0 noFail w0 (Action.CREATE [("a", 1)])).slot ≠
      { data := some [("a", 1)], loading := false, error := none } := by
  constructor
  · decide
  · decide

/-- C6: the in-memory state after a dispatch is the same whether storage
calls succeed or throw (the reducer catches storage exceptions), and is
independent of the store contents; a read failure at construction yields
the same starting state as a missing record; and a flush of the debounced
write never changes the in-memory state.  All model functions are total, so
no storage error propagates. -/
theorem c6_storage_failures_isolated {T P : Type} [DecidableEq T]
    (cfg : RssmConfig T) (ops : MergeOps T P) (now now2 : Nat)
    (fail fail2 : StorageFailure) (w w2 : World T) (a : Action T P)
    (h : w.st = w2.st) :
    (stepW cfg ops now fail w a).st = (stepW cfg ops now2 fail2 w2 a).st ∧
    (∀ (initialData : Option T) (slot : Option (StoredItem (State T))),
      getInitialState cfg initialData true now slot =
        getInitialState cfg initialData false now none) ∧
    (flushPending cfg now fail w).st = w.st := by
  refine ⟨?_, ?_, ?_⟩
  · rw [stepW_st, stepW_st, h]
  · intro initialData slot
    by_cases hpc : cfg.persist <;> simp [getInitialState, hpc, storageGet]
  · cases hpd : w.pending with
    | none => simp [flushPending, hpd]
    | some snap => by_cases hs : fail.setFails <;> simp [flushPending, hpd, hs]

/-- C6 witness: a CREATE dispatch with both storage calls failing against a
populated world reaches the same in-memory state as with all calls
succeeding against an empty world. -/
theorem c6_storage_failures_witness :
    (stepW cfgEx opsObj 0 { setFails := true, removeFails := true } wA
        (Action.CREATE [("a", 2)])).st =
      (stepW cfgEx opsObj 7 noFail w0 (Action.CREATE [("a", 2)])).st :=
  (c6_storage_failures_isolated cfgEx opsObj 0 7
      { setFails := true, removeFails := true } noFail wA w0
      (Action.CREATE [("a", 2)]) rfl).1

/-- C7: for every nonempty sequence of state-changing UPDATE dispatches
within one debounce window (persistence enabled), no durable write happens
during the window, the pending debounced write holds exactly the latest
in-memory state, and the flush (debounce expiry or instance teardown)
performs exactly one durable write containing that latest state. -/
theorem c7_debounce_window {T P : Type} [DecidableEq T] (cfg : RssmConfig T)
    (ops : MergeOps T P) (now now2 : Nat) (w : World T) (ps : List P)
    (hp : cfg.persist = true) (hne : ps ≠ [])
    (hch : allChanging cfg ops w.st ps = true) :
    (runActions cfg ops now noFail w (ps.map (Action.UPDATE ·))).writes = w.writes ∧
    (runActions cfg ops now noFail w (ps.map (Action.UPDATE ·))).pending =
      some (runActions cfg ops now noFail w (ps.map (Action.UPDATE ·))).st ∧
    flushPending cfg now2 noFail (runActions cfg ops now noFail w (ps.map (Action.UPDATE ·))) =
      { runActions cfg ops now noFail w (ps.map (Action.UPDATE ·)) with
        slot := some (storageSet now2 (cfg.ttl.getD 0) cfg.encrypt
          (runActions cfg ops now noFail w (ps.map (Action.UPDATE ·))).st),
        writes := (runActions cfg ops now noFail w (ps.map (Action.UPDATE ·))).writes ++
          [(runActions cfg ops now noFail w (ps.map (Action.UPDATE ·))).st],
        pending := none } := by
  obtain ⟨h1, h2, h3, h4, h5⟩ := c7_aux cfg ops now hp ps w hch
  have hpend := h5 hne
  refine ⟨h1, hpend, ?_⟩
  unfold flushPending
  rw [hpend]
  simp [noFail]

/-- C7 witness: five UPDATE dispatches, then a flush. -/
theorem c7_debounce_window_witness :
    (runActions cfgEx opsObj 0 noFail w0 (psW.map (Action.UPDATE ·))).writes =
      w0.writes ∧
    (runActions cfgEx opsObj 0 noFail w0 (psW.map (Action.UPDATE ·))).pending =
      some (runActions cfgEx opsObj 0 noFail w0 (psW.map (Action.UPDATE ·))).st :=
  ⟨(c7_debounce_window cfgEx opsObj 0 99 w0 psW rfl (by decide) (by decide)).1,
   (c7_debounce_window cfgEx opsObj 0 99 w0 psW rfl (by decide) (by decide)).2.1⟩

/-- C8 counterexample: the claim states that SET_ERROR always forces
`loading` to false, but when the payload equals the current error the no-op
short-circuit returns the prior state unchanged, `loading` included: from
`{data: null, loading: true, error: "e"}`, dispatching SET_ERROR("e")
leaves `loading` true. -/
theorem c8_counterexample :
    (createReducer cfgEx opsObj
        { data := none, loading := true, error := some "e" }
        (Action.SET_ERROR (some "e") : Action Obj Obj)).1.loading ≠ false := by
  decide

/-- C8 (amended): SET_ERROR(e) always leaves `data` unchanged; it forces
`loading` to false whenever `e` differs from the current error; when `e`
equals the current error, the prior state is returned unchanged with no
persistence effect (the no-op short-circuit, which preserves `loading`). -/
theorem c8_set_error_amended {T P : Type} [DecidableEq T] (cfg : RssmConfig T)
    (ops : MergeOps T P) (s : State T) (e : Option String) :
    ((createReducer cfg ops s (Action.SET_ERROR e)).1.data = s.data) ∧
    (s.error ≠ e → (createReducer cfg ops s (Action.SET_ERROR e)).1.loading = false) ∧
    (s.error = e → createReducer cfg ops s (Action.SET_ERROR e) = (s, [])) := by
  by_cases he : s.error = e
  · refine ⟨?_, fun hne => absurd he hne, fun _ => ?_⟩ <;> simp [createReducer, he]
  · refine ⟨?_, fun _ => ?_, fun hx => absurd hx he⟩ <;> simp [createReducer, he]

/-- C8 witness: setting a fresh error forces `loading` from true to false. -/
theorem c8_set_error_witness :
    (createReducer cfgEx opsObj
        { data := some [("a", 1)], loading := true, error := none }
        (Action.SET_ERROR (some "x") : Action Obj Obj)).1.loading = false :=
  (c8_set_error_amended cfgEx opsObj
      { data := some [("a", 1)], loading := true, error := none }
      (some "x")).2.1 (by decide)

/-- C9: dispatching SET_LOADING(v) when `v` equals the current loading flag
returns the same state with no persistence effect, and a second consecutive
SET_LOADING(v) is always such a no-op, so two consecutive identical
SET_LOADING dispatches persist at most once. -/
theorem c9_set_loading_idempotent {T P : Type} [DecidableEq T]
    (cfg : RssmConfig T) (ops : MergeOps T P) (s : State T) (v : Bool) :
    (s.loading = v → createReducer cfg ops s (Action.SET_LOADING v) = (s, [])) ∧
    createReducer cfg ops (createReducer cfg ops s (Action.SET_LOADING v)).1
        (Action.SET_LOADING v) =
      ((createReducer cfg ops s (Action.SET_LOADING v)).1, []) := by
  constructor
  · intro h
    simp [createReducer, h]
  · by_cases h : s.loading = v <;> simp [createReducer, h]

/-- C9 witness: SET_LOADING(false) on a state already not loading is a
same-state no-op with no persistence effect. -/
theorem c9_set_loading_witness :
    createReducer cfgEx opsObj { data := none, loading := false, error := none }
        (Action.SET_LOADING false : Action Obj Obj) =
      ({ data := none, loading := false, error := none }, []) :=
  (c9_set_loading_idempotent cfgEx opsObj
      { data := none, loading := false, error := none } false).1 rfl

end Rssm
